import Mathlib

/-!
# Verification of the DataLogger core against its specification

Shallow embedding of the DataLogger repository's core modules
(`calibration.py`, `data_logger.py`, `text_file_logger.py`,
`notification_system.py`, `database_manager.py`) and proofs of the
spec's claims about them.

Python floats are modelled as exact rationals (`ℚ`); Python's `round`
on a tie is half-to-even, modelled by `rhe`.  The persisted JSON stores
are modelled as finite maps; the channel key `str(channel)` is injective
on channel numbers, so channels are keyed by `ℕ` directly.
-/

namespace DataLogger

/-- Python's `round` on rationals: round half to even (banker's rounding). -/
def rhe (q : ℚ) : ℤ :=
  if q - ⌊q⌋ = 1/2 then (if Even ⌊q⌋ then ⌊q⌋ else ⌊q⌋ + 1) else round q

/-- Python's `round(q, n)`: round to `n` decimal places, ties to even. -/
def roundTo (n : ℕ) (q : ℚ) : ℚ :=
  (rhe (q * 10 ^ n) : ℚ) / 10 ^ n

/-! ## Calibration store (`calibration.py`)

A value stored under a channel key in `calibration.json` is either a
legacy bare number or a dict-form profile.  The dict-form profiles
written by this module always carry the keys
`factor, slope, offset, ice_reading, boil_reading, calibration_method`
(plus `actual_ice`/`actual_boil` for two-point profiles); `factor` is
`none` when the stored JSON value is not a number (the
`isinstance(factor, (int, float))` guard in `apply_correction`). -/

structure CalProfile where
  factor : Option ℚ
  slope : ℚ
  offset : ℚ
  ice_reading : Option ℚ
  boil_reading : Option ℚ
  actual_ice : Option ℚ
  actual_boil : Option ℚ
  calibration_method : String
  deriving DecidableEq

/-- One entry of `calibration.json`: legacy bare number or dict profile. -/
inductive CalEntry where
  | legacy (x : ℚ)
  | profile (p : CalProfile)
  deriving DecidableEq

/-- The persisted calibration store, keyed by channel number. -/
def CalStore := ℕ → Option CalEntry

/-- `set_calibration_factor(channel, factor)`: sets a simple multiplier
factor; creates a default dict structure when the channel is missing or
not dict-form, otherwise updates only `factor` and `calibration_method`. -/
def set_calibration_factor (store : CalStore) (channel : ℕ) (factor : ℚ) : CalStore :=
  fun c =>
    if c = channel then
      match store channel with
      | some (CalEntry.profile p) =>
          some (CalEntry.profile { p with factor := some factor,
                                          calibration_method := "simple" })
      | _ =>
          some (CalEntry.profile
            { factor := some factor, slope := 1, offset := 0,
              ice_reading := none, boil_reading := none,
              actual_ice := none, actual_boil := none,
              calibration_method := "simple" })
    else store c

/-- Result dict returned by `set_two_point_calibration`. -/
structure TwoPointResult where
  slope : ℚ
  offset : ℚ
  factor : ℚ
  deriving DecidableEq

/-- `set_two_point_calibration(channel, ice_reading, boil_reading,
actual_ice=0.0, actual_boil=100.0)`: raises `ValueError` when
`boil_reading == ice_reading` before any store mutation (the first
component is the persisted store after the call — unchanged on the
error path); otherwise computes `slope`/`offset`, stores them rounded
(6/4 decimals, factor at 4 decimals) and returns the stored
`{slope, offset, factor}`. -/
def set_two_point_calibration (store : CalStore) (channel : ℕ)
    (ice_reading boil_reading : ℚ) (actual_ice : ℚ := 0) (actual_boil : ℚ := 100) :
    CalStore × Except String TwoPointResult :=
  if boil_reading = ice_reading then
    (store, .error "Ice and boiling readings cannot be the same")
  else
    let slope := (actual_boil - actual_ice) / (boil_reading - ice_reading)
    let offset := actual_ice - slope * ice_reading
    let simple_factor := slope
    let entry : CalProfile :=
      { factor := some (roundTo 4 simple_factor),
        slope := roundTo 6 slope,
        offset := roundTo 4 offset,
        ice_reading := some ice_reading,
        boil_reading := some boil_reading,
        actual_ice := some actual_ice,
        actual_boil := some actual_boil,
        calibration_method := "two_point" }
    let store' : CalStore := fun c =>
      if c = channel then some (CalEntry.profile entry) else store c
    (store', .ok { slope := entry.slope, offset := entry.offset,
                   factor := (roundTo 4 simple_factor) })

/-- `get_channel_calibration(channel)`: full calibration data for a
channel; missing channel yields the identity defaults, a legacy bare
number yields a simple profile with that factor. -/
def get_channel_calibration (store : CalStore) (channel : ℕ) : CalProfile :=
  match store channel with
  | none =>
      { factor := some 1, slope := 1, offset := 0,
        ice_reading := none, boil_reading := none,
        actual_ice := none, actual_boil := none,
        calibration_method := "none" }
  | some (CalEntry.legacy x) =>
      { factor := some x, slope := x, offset := 0,
        ice_reading := none, boil_reading := none,
        actual_ice := none, actual_boil := none,
        calibration_method := "simple" }
  | some (CalEntry.profile p) => p

/-- `apply_correction(channel, temperature)`: `"none"` → identity,
`"two_point"` → `temperature * slope + offset`, anything else → simple
factor multiplication (identity when the stored factor is not a number). -/
def apply_correction (store : CalStore) (channel : ℕ) (temperature : ℚ) : ℚ :=
  let cal_data := get_channel_calibration store channel
  let method := cal_data.calibration_method
  if method = "none" then
    temperature
  else if method = "two_point" then
    temperature * cal_data.slope + cal_data.offset
  else
    match cal_data.factor with
    | some factor => temperature * factor
    | none => temperature

/-- `reset_channel_calibration(channel)`: restores the identity profile. -/
def reset_channel_calibration (store : CalStore) (channel : ℕ) : CalStore :=
  fun c =>
    if c = channel then
      some (CalEntry.profile
        { factor := some 1, slope := 1, offset := 0,
          ice_reading := none, boil_reading := none,
          actual_ice := none, actual_boil := none,
          calibration_method := "none" })
    else store c

/-! ## Sampling loop and dual-sink persistence (`data_logger.py`)

Sink failures are injected as boolean flags (a failing call models the
underlying I/O raising).  `TextFileLogger.log_reading` catches every
exception internally, so its model is a total function that drops the
reading on failure.  `SQLiteDatabase.insert_reading` (the default
structured store reached through the `DatabaseManager` proxy) has no
internal catch, so its model returns `Except`.  Time is `ℚ` seconds. -/

/-- A Reading produced by the sampling loop. -/
structure Reading where
  channel : ℕ
  raw : ℚ
  calibrated : ℚ
  timestamp : ℚ
  deriving DecidableEq

/-- A row of the structured store's `readings` table
(`id` autoincrement omitted).  The SQLite insert stamps
`datetime.now()`, modelled as the tick time. -/
structure DbRecord where
  thermocouple_id : ℕ
  temperature : ℚ
  timestamp : ℚ
  deriving DecidableEq

/-- `TextFileLogger.log_reading`: appends the reading's line; every
internal exception is caught and printed, so the call never raises and
on failure the text log is simply left unchanged. -/
def log_reading (fails : Bool) (log : List Reading) (r : Reading) : List Reading :=
  if fails then log else log ++ [r]

/-- `SQLiteDatabase.insert_reading(thermocouple_id, temperature)`:
no internal catch — a failing call raises to the caller. -/
def insert_reading (fails : Bool) (db : List DbRecord) (now : ℚ)
    (thermocouple_id : ℕ) (temperature : ℚ) : Except Unit (List DbRecord) :=
  if fails then .error () else .ok (db ++ [⟨thermocouple_id, temperature, now⟩])

/-- Scheduler-owned mutable state of `data_logger.py` plus the two sinks. -/
structure LoggerState where
  sensor_active_status : ℕ → Bool
  sensor_intervals : ℕ → ℚ
  last_log_time : ℕ → ℚ
  textLog : List Reading
  db : List DbRecord

/-- The inline dual-write sequence of `log_temperatures`
(`data_logger.py:94-102`): text-file write first, then the structured
insert.  Result: `(some (), st)` when an exception escapes the
sequence (only the structured insert can raise), else `(none, st)`. -/
def record (textFails dbFails : Bool) (st : LoggerState) (r : Reading) :
    Option Unit × LoggerState :=
  let st1 := { st with textLog := log_reading textFails st.textLog r }
  match insert_reading dbFails st1.db r.timestamp r.channel r.calibrated with
  | .error _ => (some (), st1)
  | .ok db' => (none, { st1 with db := db' })

/-- `NUMBER_OF_CHANNELS = 8`; the per-tick channel iteration order. -/
def channelList : List ℕ := [1, 2, 3, 4, 5, 6, 7, 8]

/-- One channel's slice of a tick (`data_logger.py:86-107`): if the
channel is active and due, read the driver; a `None` read disables the
channel; otherwise calibrate and dual-write, updating
`last_log_time[i]` only when no exception occurred.  Also returns the
Readings handed to the persistence layer. -/
def processChannel (cal : CalStore) (drv : ℕ → Option ℚ)
    (textFail dbFail : ℕ → Bool) (now : ℚ) (st : LoggerState) (i : ℕ) :
    Option Unit × LoggerState × List Reading :=
  if st.sensor_active_status i then
    if now - st.last_log_time i ≥ st.sensor_intervals i then
      match drv i with
      | some temp =>
          let corrected := apply_correction cal i temp
          let r : Reading := ⟨i, temp, corrected, now⟩
          match record (textFail i) (dbFail i) st r with
          | (some e, st1) => (some e, st1, [r])
          | (none, st2) =>
              (none, { st2 with
                  last_log_time := fun j => if j = i then now else st.last_log_time j },
               [r])
      | none =>
          (none, { st with
              sensor_active_status := fun j =>
                if j = i then false else st.sensor_active_status j },
           [])
    else (none, st, [])
  else (none, st, [])

/-- The per-tick `for`-loop over channels: sequential, an uncaught
exception from one channel's slice aborts the remainder of the tick. -/
def tickChannels (cal : CalStore) (drv : ℕ → Option ℚ)
    (textFail dbFail : ℕ → Bool) (now : ℚ) :
    LoggerState → List ℕ → Option Unit × LoggerState × List Reading
  | st, [] => (none, st, [])
  | st, i :: rest =>
      match processChannel cal drv textFail dbFail now st i with
      | (some e, st', rs) => (some e, st', rs)
      | (none, st', rs) =>
          match tickChannels cal drv textFail dbFail now st' rest with
          | (e, st'', rs') => (e, st'', rs ++ rs')

/-- The `try`-guarded body of the `while` loop (`data_logger.py:80-129`):
any exception from the tick is caught and logged (then the loop sleeps),
so the guarded body is a total function and the loop never dies. -/
def loopBody (cal : CalStore) (drv : ℕ → Option ℚ)
    (textFail dbFail : ℕ → Bool) (now : ℚ) (st : LoggerState) :
    LoggerState × List Reading :=
  match tickChannels cal drv textFail dbFail now st channelList with
  | (_, st', rs) => (st', rs)

/-- Thread-lifecycle state of `data_logger.py`: `threadAlive` models
`logging_thread is not None and logging_thread.is_alive()`,
`stopEvent` models `logging_stop_event`. -/
structure SchedState where
  threadAlive : Bool
  stopEvent : Bool
  logger : LoggerState

/-- `start_logging_thread()`: no-op returning `False` when the thread is
alive; otherwise clears the stop event, spawns the loop, returns `True`. -/
def start_logging_thread (s : SchedState) : SchedState × Bool :=
  if s.threadAlive then (s, false)
  else ({ s with threadAlive := true, stopEvent := false }, true)

/-- `stop_logging_thread()`: returns `False` when nothing is running;
otherwise sets the stop event and joins — the join blocks until the
loop thread has exited, so on return the thread is no longer alive. -/
def stop_logging_thread (s : SchedState) : SchedState × Bool :=
  if s.threadAlive then ({ s with threadAlive := false, stopEvent := true }, true)
  else (s, false)

/-- `is_logging()`. -/
def is_logging (s : SchedState) : Bool := s.threadAlive

/-- One iteration of the logger thread as observed from outside: a dead
thread does nothing; a set stop event makes the loop exit without
sampling; otherwise one guarded tick runs. -/
def loopStep (cal : CalStore) (drv : ℕ → Option ℚ)
    (textFail dbFail : ℕ → Bool) (now : ℚ) (s : SchedState) :
    SchedState × List Reading :=
  if ¬ s.threadAlive then (s, [])
  else if s.stopEvent then ({ s with threadAlive := false }, [])
  else
    match loopBody cal drv textFail dbFail now s.logger with
    | (st', rs) => ({ s with logger := st' }, rs)

/-- Iterate the logger thread over a list of tick times, collecting all
Readings produced. -/
def loopRun (cal : CalStore) (drv : ℕ → Option ℚ)
    (textFail dbFail : ℕ → Bool) :
    SchedState → List ℚ → SchedState × List Reading
  | s, [] => (s, [])
  | s, now :: rest =>
      match loopStep cal drv textFail dbFail now s with
      | (s', rs) =>
          match loopRun cal drv textFail dbFail s' rest with
          | (s'', rs') => (s'', rs ++ rs')

/-! ## Daily consolidation (`text_file_logger.py:121-167`)

An hourly raw file is modelled as its list of CSV rows (a row is the
list of its fields).  `consolidate_daily_file` collects the existing
hourly files of the day for hours `0..23` (the code then sorts the
collected paths; zero-padded hour suffixes make that sort coincide with
hour order), writes the header row once, and for each hourly file skips
its first row (`next(reader, None)`) and copies every row with at least
4 fields. -/

/-- The CSV header row written by the text logger. -/
def headerRow : List String :=
  ["timestamp", "channel", "temperature", "calibrated_temp", "unit"]

/-- `TextFileLogger.consolidate_daily_file`: `rawFiles h` is the content
of hour `h`'s raw file, `none` when the file does not exist.  Returns
the daily file contents, or `none` when no raw files exist (in which
case no daily file is written). -/
def consolidate_daily_file (rawFiles : Fin 24 → Option (List (List String))) :
    Option (List (List String)) :=
  let files := (List.finRange 24).filterMap rawFiles
  if files.isEmpty then none
  else
    some (headerRow ::
      (files.map fun f => (f.drop 1).filter fun row => 4 ≤ row.length).flatten)

/-! ## Alert dispatcher (`notification_system.py`)

`Alert` carries the dataclass fields; the free-text `data` dict is kept
abstract as an association list (the concrete alerts fill it with
display strings that no logic reads back).  `success` passed to
`send_email` abstracts "email enabled ∧ recipients nonempty ∧ SMTP send
succeeded"; only a successful send appends to `sent_alerts`. -/

inductive NAlertLevel where
  | info | warning | critical | emergency
  deriving DecidableEq

structure NAlert where
  level : NAlertLevel
  title : String
  message : String
  timestamp : ℚ
  data : List (String × String)
  sent : Bool := false
  retry_count : ℕ := 0
  deriving DecidableEq

/-- The configuration fields the dispatcher logic reads. -/
structure NotifConfig where
  duplicate_suppression_minutes : ℚ := 30
  alerts_board_disconnect : Bool := true
  alerts_internet_disconnect : Bool := true

/-- Mutable state of `EmailNotificationSystem` (with its
`ConnectivityMonitor`): the in-memory `alert_queue`, the successfully
sent alerts, the on-disk `queued_alerts.json` (empty list when the file
is absent), and the previously observed connectivity. -/
structure NotifState where
  sent_alerts : List NAlert
  alert_queue : List NAlert
  queued_alerts_file : List NAlert
  internet_connected : Bool
  board_connected : Bool

/-- `is_duplicate_alert`: true when some *sent* alert has the same title
and a timestamp strictly later than `now - suppression_minutes`. -/
def is_duplicate_alert (cfg : NotifConfig) (now : ℚ) (sent : List NAlert)
    (title : String) : Bool :=
  sent.any fun s =>
    s.title == title &&
      decide (now - cfg.duplicate_suppression_minutes * 60 < s.timestamp)

/-- `create_alert(level, title, message, data)`: builds the alert with
`timestamp = now`; puts it on the in-memory queue unless it is a
duplicate; returns the alert either way. -/
def create_alert (cfg : NotifConfig) (now : ℚ) (st : NotifState)
    (level : NAlertLevel) (title message : String)
    (data : List (String × String)) : NotifState × NAlert :=
  let alert : NAlert :=
    { level := level, title := title, message := message,
      timestamp := now, data := data }
  if is_duplicate_alert cfg now st.sent_alerts title then (st, alert)
  else ({ st with alert_queue := st.alert_queue ++ [alert] }, alert)

/-- `send_email(alert)`: on success marks the alert sent and appends it
to `sent_alerts`; on failure (disabled, no recipients, or SMTP error)
increments the alert's `retry_count` and records nothing. -/
def send_email (success : Bool) (st : NotifState) (a : NAlert) :
    NotifState × Bool :=
  if success then
    ({ st with sent_alerts := st.sent_alerts ++ [{ a with sent := true }] }, true)
  else (st, false)

/-- One delivery step of the worker loop: pop the queue head and try to
send it. -/
def processNextAlert (success : Bool) (st : NotifState) : NotifState :=
  match st.alert_queue with
  | [] => st
  | a :: rest => (send_email success { st with alert_queue := rest } a).1

/-- `save_alert_to_file(alert)`: appends the alert to
`queued_alerts.json`. -/
def save_alert_to_file (st : NotifState) (a : NAlert) : NotifState :=
  { st with queued_alerts_file := st.queued_alerts_file ++ [a] }

/-- `process_queued_alerts()`: re-queues every alert of
`queued_alerts.json` into the in-memory queue in file order, then
removes the file. -/
def process_queued_alerts (st : NotifState) : NotifState :=
  { st with alert_queue := st.alert_queue ++ st.queued_alerts_file,
            queued_alerts_file := [] }

/-- The "Internet Connection Lost" alert built inline at
`notification_system.py:479-488` (its display-only `data` strings are
kept abstract). -/
def internetLostAlert (now : ℚ) : NAlert :=
  { level := .warning, title := "Internet Connection Lost",
    message := "Internet connectivity has been lost. Email alerts will be queued until connection is restored.",
    timestamp := now, data := [] }

/-- `check_connectivity()`: observes the new connectivity booleans,
raises edge-triggered alerts, persists the internet-lost alert to the
on-disk queue (bypassing `create_alert` and the in-memory queue), and
on reconnect raises the restored alert and drains the on-disk queue.
Finally records the observed state. -/
def check_connectivity (cfg : NotifConfig) (now : ℚ)
    (internetNow boardNow : Bool) (st : NotifState) : NotifState :=
  let boardChanged := boardNow ≠ st.board_connected
  let inetChanged := internetNow ≠ st.internet_connected
  let st1 :=
    if cfg.alerts_board_disconnect ∧ boardChanged ∧ ¬ boardNow then
      (create_alert cfg now st .critical "SMTC Board Disconnected"
        "The thermocouple measurement board has been disconnected. Temperature logging will stop." []).1
    else st
  let st2 :=
    if boardChanged ∧ boardNow ∧ ¬ st.board_connected then
      (create_alert cfg now st1 .info "SMTC Board Reconnected"
        "The thermocouple measurement board has been reconnected. Temperature logging can resume." []).1
    else st1
  let st3 :=
    if cfg.alerts_internet_disconnect ∧ inetChanged ∧ ¬ internetNow then
      save_alert_to_file st2 (internetLostAlert now)
    else st2
  let st4 :=
    if inetChanged ∧ internetNow ∧ ¬ st.internet_connected then
      process_queued_alerts
        ((create_alert cfg now st3 .info "Internet Connection Restored"
          "Internet connectivity has been restored. Sending queued alerts." []).1)
    else st3
  { st4 with internet_connected := internetNow, board_connected := boardNow }

/-! ## Claims about the calibration store -/

/-- C4: for every channel whose calibration method is `"none"`,
`apply_correction` is the identity regardless of the stored factor,
slope and offset (the store is universally quantified, so the stored
numeric fields are arbitrary); a channel with no stored profile
defaults to the identity.  `apply_correction` is a total function of
the embedding, so it never throws. -/
theorem c4_apply_identity_when_none (store : CalStore) (channel : ℕ) (x : ℚ) :
    ((get_channel_calibration store channel).calibration_method = "none" →
      apply_correction store channel x = x) ∧
    (store channel = none → apply_correction store channel x = x) := by
  constructor
  · intro h
    simp [apply_correction, h]
  · intro h
    simp [apply_correction, get_channel_calibration, h]

/-- A store whose channel 3 has `calibration_method = "none"` but
deliberately non-identity factor/slope/offset. -/
def c4Store : CalStore := fun c =>
  if c = 3 then
    some (CalEntry.profile
      { factor := some 7, slope := 5, offset := 9,
        ice_reading := none, boil_reading := none,
        actual_ice := none, actual_boil := none,
        calibration_method := "none" })
  else none

/-- Witness for C4 at a concrete store: channel 3 has method `"none"`
with factor 7, slope 5, offset 9 yet corrects 42 to 42; channel 5 has
no profile and also corrects 42 to 42. -/
theorem c4_apply_identity_when_none_witness :
    (get_channel_calibration c4Store 3).calibration_method = "none" ∧
    apply_correction c4Store 3 42 = 42 ∧
    c4Store 5 = none ∧
    apply_correction c4Store 5 42 = 42 :=
  ⟨by decide, (c4_apply_identity_when_none c4Store 3 42).1 (by decide),
   by decide, (c4_apply_identity_when_none c4Store 5 42).2 (by decide)⟩

/-- C10: on a channel that already holds a dict-form profile,
`set_calibration_factor` rewrites exactly the `factor` and
`calibration_method` fields (the record update leaves `slope`,
`offset`, `ice_reading`, `boil_reading`, `actual_ice`, `actual_boil`
untouched), and every other channel's entry is unchanged. -/
theorem c10_set_factor_frame (store : CalStore) (channel : ℕ) (factor : ℚ)
    (p : CalProfile) (h : store channel = some (CalEntry.profile p)) :
    set_calibration_factor store channel factor channel =
      some (CalEntry.profile
        { p with factor := some factor, calibration_method := "simple" }) ∧
    ∀ c, c ≠ channel → set_calibration_factor store channel factor c = store c := by
  constructor
  · simp [set_calibration_factor, h]
  · intro c hc
    simp [set_calibration_factor, hc]

/-- A store whose channel 3 holds a two-point dict profile. -/
def c10Store : CalStore := fun c =>
  if c = 3 then
    some (CalEntry.profile
      { factor := some 2, slope := 3, offset := 4,
        ice_reading := some 1, boil_reading := some 99,
        actual_ice := some 0, actual_boil := some 100,
        calibration_method := "two_point" })
  else none

/-- Witness for C10: updating channel 3's simple factor to 5/2 keeps
its slope 3, offset 4 and reference readings, and channel 4 stays
absent. -/
theorem c10_set_factor_frame_witness :
    c10Store 3 = some (CalEntry.profile
      { factor := some 2, slope := 3, offset := 4,
        ice_reading := some 1, boil_reading := some 99,
        actual_ice := some 0, actual_boil := some 100,
        calibration_method := "two_point" }) ∧
    set_calibration_factor c10Store 3 (5/2) 3 =
      some (CalEntry.profile
        { factor := some (5/2), slope := 3, offset := 4,
          ice_reading := some 1, boil_reading := some 99,
          actual_ice := some 0, actual_boil := some 100,
          calibration_method := "simple" }) ∧
    set_calibration_factor c10Store 3 (5/2) 4 = c10Store 4 :=
  ⟨by decide,
   (c10_set_factor_frame c10Store 3 (5/2)
      { factor := some 2, slope := 3, offset := 4,
        ice_reading := some 1, boil_reading := some 99,
        actual_ice := some 0, actual_boil := some 100,
        calibration_method := "two_point" } (by decide)).1,
   (c10_set_factor_frame c10Store 3 (5/2)
      { factor := some 2, slope := 3, offset := 4,
        ice_reading := some 1, boil_reading := some 99,
        actual_ice := some 0, actual_boil := some 100,
        calibration_method := "two_point" } (by decide)).2 4 (by decide)⟩

/-- C2: `set_two_point_calibration` with `boil_reading = ice_reading`
raises `ValueError` and leaves the persisted store unchanged (the
guard runs before any store mutation); with `boil_reading ≠
ice_reading` it computes `slope = (actual_boil - actual_ice) /
(boil_reading - ice_reading)` and `offset = actual_ice - slope *
ice_reading`, persists them under the channel (at the documented
storage precision: 6 decimals for slope, 4 for offset and factor) and
returns the stored `{slope, offset, factor}`; other channels are
untouched. -/
theorem c2_two_point_validation (store : CalStore) (channel : ℕ)
    (ice boil aIce aBoil : ℚ) :
    (boil = ice →
      set_two_point_calibration store channel ice boil aIce aBoil =
        (store, .error "Ice and boiling readings cannot be the same")) ∧
    (boil ≠ ice →
      (set_two_point_calibration store channel ice boil aIce aBoil).2 =
        .ok { slope := roundTo 6 ((aBoil - aIce) / (boil - ice)),
              offset := roundTo 4 (aIce - (aBoil - aIce) / (boil - ice) * ice),
              factor := roundTo 4 ((aBoil - aIce) / (boil - ice)) } ∧
      (set_two_point_calibration store channel ice boil aIce aBoil).1 channel =
        some (CalEntry.profile
          { factor := some (roundTo 4 ((aBoil - aIce) / (boil - ice))),
            slope := roundTo 6 ((aBoil - aIce) / (boil - ice)),
            offset := roundTo 4 (aIce - (aBoil - aIce) / (boil - ice) * ice),
            ice_reading := some ice, boil_reading := some boil,
            actual_ice := some aIce, actual_boil := some aBoil,
            calibration_method := "two_point" }) ∧
      ∀ c, c ≠ channel →
        (set_two_point_calibration store channel ice boil aIce aBoil).1 c =
          store c) := by
  constructor
  · intro h
    simp [set_two_point_calibration, h]
  · intro h
    refine ⟨?_, ?_, ?_⟩
    · simp [set_two_point_calibration, h]
    · simp [set_two_point_calibration, h]
    · intro c hc
      simp [set_two_point_calibration, h, hc]

/-- Witness for C2 at channel 2: equal readings `(5, 5)` are rejected
with the store unchanged; readings `(0, 50)` with actuals `(0, 100)`
persist slope 2, offset 0, factor 2. -/
theorem c2_two_point_validation_witness :
    ((5 : ℚ) = 5 ∧
      set_two_point_calibration (fun _ => none) 2 5 5 0 100 =
        (fun _ => none, .error "Ice and boiling readings cannot be the same")) ∧
    ((50 : ℚ) ≠ 0 ∧
      (set_two_point_calibration (fun _ => none) 2 0 50 0 100).2 =
        .ok { slope := roundTo 6 ((100 - 0) / (50 - 0)),
              offset := roundTo 4 (0 - (100 - 0) / (50 - 0) * 0),
              factor := roundTo 4 ((100 - 0) / (50 - 0)) }) :=
  ⟨⟨rfl, (c2_two_point_validation (fun _ => none) 2 5 5 0 100).1 rfl⟩,
   ⟨by norm_num,
    ((c2_two_point_validation (fun _ => none) 2 0 50 0 100).2 (by norm_num)).1⟩⟩

/-- C5: after `set_two_point_calibration(ch, ice_reading=2,
boil_reading=98, actual_ice=0, actual_boil=100)` the stored fields are
exactly the documented roundings of the full-precision slope
`100/96` and offset `-100/48` (6 decimals for slope, 4 for offset and
factor); the correction arithmetic itself applies `x * slope + offset`
with no further rounding; and the two calibration points map back to
`0` and `100` within `1/1000` (the residual `17/500000` and `33/500000`
being exactly the effect of the documented storage rounding). -/
theorem c5_two_point_roundtrip (store : CalStore) (channel : ℕ) :
    (set_two_point_calibration store channel 2 98).1 channel =
      some (CalEntry.profile
        { factor := some (10417/10000), slope := 1041667/1000000,
          offset := -(20833/10000), ice_reading := some 2,
          boil_reading := some 98, actual_ice := some 0,
          actual_boil := some 100, calibration_method := "two_point" }) ∧
    roundTo 6 ((100 - 0 : ℚ) / (98 - 2)) = 1041667/1000000 ∧
    roundTo 4 ((0 : ℚ) - (100 - 0) / (98 - 2) * 2) = -(20833/10000) ∧
    roundTo 4 ((100 - 0 : ℚ) / (98 - 2)) = 10417/10000 ∧
    (∀ x : ℚ,
      apply_correction (set_two_point_calibration store channel 2 98).1 channel x =
        x * (1041667/1000000) + -(20833/10000)) ∧
    |apply_correction (set_two_point_calibration store channel 2 98).1 channel 2 - 0|
      ≤ 1/1000 ∧
    |apply_correction (set_two_point_calibration store channel 2 98).1 channel 98 - 100|
      ≤ 1/1000 := by
  have h6 : roundTo 6 ((100 - 0 : ℚ) / (98 - 2)) = 1041667/1000000 := by
    norm_num [roundTo, rhe, round_eq]
  have h4o : roundTo 4 ((0 : ℚ) - (100 - 0) / (98 - 2) * 2) = -(20833/10000) := by
    norm_num [roundTo, rhe, round_eq]
  have h4f : roundTo 4 ((100 - 0 : ℚ) / (98 - 2)) = 10417/10000 := by
    norm_num [roundTo, rhe, round_eq]
  have hstore : (set_two_point_calibration store channel 2 98).1 channel =
      some (CalEntry.profile
        { factor := some (10417/10000), slope := 1041667/1000000,
          offset := -(20833/10000), ice_reading := some 2,
          boil_reading := some 98, actual_ice := some 0,
          actual_boil := some 100, calibration_method := "two_point" }) := by
    simp only [set_two_point_calibration]
    rw [if_neg (by norm_num : ¬ (98 : ℚ) = 2)]
    simp only [if_pos rfl]
    rw [show ((100 : ℚ) - 0) / (98 - 2) = (100 - 0) / (98 - 2) from rfl] at h6 h4f
    rw [show ((0 : ℚ) - (100 - 0) / (98 - 2) * 2) = 0 - (100 - 0) / (98 - 2) * 2 from rfl] at h4o
    norm_num at h6 h4o h4f ⊢
    exact ⟨h4f, h6, h4o⟩
  have happly : ∀ x : ℚ,
      apply_correction (set_two_point_calibration store channel 2 98).1 channel x =
        x * (1041667/1000000) + -(20833/10000) := by
    intro x
    simp [apply_correction, get_channel_calibration, hstore]
  refine ⟨hstore, h6, h4o, h4f, happly, ?_, ?_⟩
  · rw [happly 2]
    rw [show (2 : ℚ) * (1041667/1000000) + -(20833/10000) - 0 = 17/500000 by norm_num]
    rw [abs_le]; constructor <;> norm_num
  · rw [happly 98]
    rw [show (98 : ℚ) * (1041667/1000000) + -(20833/10000) - 100 = 33/500000 by norm_num]
    rw [abs_le]; constructor <;> norm_num

/-! ## Claim about daily consolidation -/

/-- C9: for a fully-populated day (all 24 hourly files present, each
starting with its header row and containing only well-formed data rows
of at least 4 fields), `consolidate_daily_file` produces the daily file
consisting of the header written exactly once followed by every hourly
file's data rows (each hourly header skipped) in hour order, and the
daily file's record count equals the sum over the 24 hourly files of
their record counts minus their headers. -/
theorem c9_consolidate_full_day (files : Fin 24 → List (List String))
    (hvalid : ∀ h : Fin 24, ∀ row ∈ (files h).drop 1, 4 ≤ row.length) :
    consolidate_daily_file (fun h => some (files h)) =
      some (headerRow :: ((List.finRange 24).map fun h => (files h).drop 1).flatten) ∧
    (headerRow :: ((List.finRange 24).map fun h => (files h).drop 1).flatten).length - 1 =
      ((List.finRange 24).map fun h => (files h).length - 1).sum := by
  have hmap : (List.finRange 24).filterMap (fun h => some (files h)) =
      (List.finRange 24).map files := List.filterMap_eq_map files ▸ rfl
  constructor
  · simp only [consolidate_daily_file, hmap]
    rw [if_neg (by simp [List.isEmpty_iff])]
    congr 1
    congr 1
    rw [List.map_map]
    refine congrArg List.flatten ?_
    refine List.map_congr_left ?_
    intro h _
    exact List.filter_eq_self.mpr fun row hrow => by
      simpa using hvalid h row hrow
  · simp only [List.length_cons, Nat.add_sub_cancel, List.length_flatten, List.map_map]
    congr 1
    refine List.map_congr_left ?_
    intro h _
    simp [List.length_drop]

/-- A fully-populated day where every hourly file holds the header and
two data rows. -/
def c9Files : Fin 24 → List (List String) := fun _ =>
  [headerRow,
   ["2024-01-15T10:00:00", "1", "20.000", "20.500", "C"],
   ["2024-01-15T10:00:05", "2", "21.000", "21.500", "C"]]

/-- Witness for C9 on a concrete fully-populated day: every data row is
well-formed, and consolidation yields the single-header daily file with
`48 = 24 * (3 - 1)` records. -/
theorem c9_consolidate_full_day_witness :
    (∀ h : Fin 24, ∀ row ∈ (c9Files h).drop 1, 4 ≤ row.length) ∧
    consolidate_daily_file (fun h => some (c9Files h)) =
      some (headerRow ::
        ((List.finRange 24).map fun h => (c9Files h).drop 1).flatten) ∧
    (headerRow :: ((List.finRange 24).map fun h => (c9Files h).drop 1).flatten).length - 1 =
      ((List.finRange 24).map fun h => (c9Files h).length - 1).sum :=
  ⟨by decide,
   (c9_consolidate_full_day c9Files (by decide)).1,
   (c9_consolidate_full_day c9Files (by decide)).2⟩

/-! ## Claim about start/stop -/

/-- A dead logger thread never runs a tick: iterating the loop from a
state whose thread is not alive leaves the state unchanged and produces
no Readings. -/
theorem loopRun_of_not_alive (cal : CalStore) (drv : ℕ → Option ℚ)
    (textFail dbFail : ℕ → Bool) (nows : List ℚ) (s : SchedState)
    (h : s.threadAlive = false) :
    loopRun cal drv textFail dbFail s nows = (s, []) := by
  induction nows with
  | nil => rfl
  | cons now rest ih =>
      simp only [loopRun, loopStep, h]
      simpa [loopRun, loopStep, h] using ih

/-- C7: `start()` on a non-running scheduler returns `true` and a
second immediate `start()` returns `false` (no-op while running);
`stop()` when nothing is running returns `false`; `stop()` on a
running scheduler signals the stop event, joins the thread (so on
return the thread is no longer alive), returns `true`, and afterwards
no Readings are ever produced again no matter what data the driver
still has available. -/
theorem c7_start_stop_idempotent (s : SchedState) (h : s.threadAlive = false)
    (t : SchedState) (ht : t.threadAlive = true) :
    (start_logging_thread s).2 = true ∧
    (start_logging_thread (start_logging_thread s).1).2 = false ∧
    (stop_logging_thread s).2 = false ∧
    (stop_logging_thread t).2 = true ∧
    (stop_logging_thread t).1.threadAlive = false ∧
    (stop_logging_thread t).1.stopEvent = true ∧
    ∀ (cal : CalStore) (drv : ℕ → Option ℚ) (textFail dbFail : ℕ → Bool)
      (nows : List ℚ),
      (loopRun cal drv textFail dbFail (stop_logging_thread t).1 nows).2 = [] ∧
      (loopRun cal drv textFail dbFail (stop_logging_thread t).1 nows).1.threadAlive
        = false := by
  refine ⟨?_, ?_, ?_, ?_, ?_, ?_, ?_⟩
  · simp [start_logging_thread, h]
  · simp [start_logging_thread, h]
  · simp [stop_logging_thread, h]
  · simp [stop_logging_thread, ht]
  · simp [stop_logging_thread, ht]
  · simp [stop_logging_thread, ht]
  · intro cal drv textFail dbFail nows
    have hdead : (stop_logging_thread t).1.threadAlive = false := by
      simp [stop_logging_thread, ht]
    rw [loopRun_of_not_alive cal drv textFail dbFail nows _ hdead]
    exact ⟨rfl, hdead⟩

/-- The initial scheduler-owned state of `data_logger.py`: all 8
channels active at the 5-second default interval, empty sinks. -/
def initLogger : LoggerState :=
  { sensor_active_status := fun _ => true,
    sensor_intervals := fun _ => 5,
    last_log_time := fun _ => 0,
    textLog := [], db := [] }

/-- Witness for C7 at concrete states: starting from the not-running
initial state returns `true` then `false`; stopping the not-running
state returns `false`; stopping a running state returns `true` and two
further loop iterations at times 10 and 20, with a driver that has data
on every channel, produce no Readings. -/
theorem c7_start_stop_idempotent_witness :
    ((⟨false, false, initLogger⟩ : SchedState).threadAlive = false ∧
     (⟨true, false, initLogger⟩ : SchedState).threadAlive = true) ∧
    (start_logging_thread ⟨false, false, initLogger⟩).2 = true ∧
    (start_logging_thread (start_logging_thread ⟨false, false, initLogger⟩).1).2 = false ∧
    (stop_logging_thread ⟨false, false, initLogger⟩).2 = false ∧
    (stop_logging_thread ⟨true, false, initLogger⟩).2 = true ∧
    (loopRun (fun _ => none) (fun _ => some 25) (fun _ => false) (fun _ => false)
        (stop_logging_thread ⟨true, false, initLogger⟩).1 [10, 20]).2 = [] :=
  ⟨⟨rfl, rfl⟩,
   (c7_start_stop_idempotent ⟨false, false, initLogger⟩ rfl
      ⟨true, false, initLogger⟩ rfl).1,
   (c7_start_stop_idempotent ⟨false, false, initLogger⟩ rfl
      ⟨true, false, initLogger⟩ rfl).2.1,
   (c7_start_stop_idempotent ⟨false, false, initLogger⟩ rfl
      ⟨true, false, initLogger⟩ rfl).2.2.1,
   (c7_start_stop_idempotent ⟨false, false, initLogger⟩ rfl
      ⟨true, false, initLogger⟩ rfl).2.2.2.1,
   ((c7_start_stop_idempotent ⟨false, false, initLogger⟩ rfl
      ⟨true, false, initLogger⟩ rfl).2.2.2.2.2.2
      (fun _ => none) (fun _ => some 25) (fun _ => false) (fun _ => false)
      [10, 20]).1⟩

/-! ## Claims about the dual-write and per-channel isolation -/

/-- C1 counterexample: with every structured-store write throwing
(`dbFails = true`) and the text sink healthy, the dual-write sequence
for a single Reading does *not* return normally — the structured
store's exception escapes the record operation (it is caught only by
the sampling loop's generic catch-all, not by a per-sink handler), so
the claim "no exception propagates out of the record operation" is
false at this input. -/
theorem c1_counterexample :
    ¬ ((record false true initLogger ⟨1, 25, 25, 10⟩).1 = none) := by decide

/-- C1 amended: the Text-Log write comes first and its failures are
caught inside the text logger, so a text-sink failure never blocks the
structured-store write (1); with both sinks healthy both receive the
Reading (2); when the structured store throws, the Text Log still
contains the Reading and nothing is rolled back, but the exception
escapes the dual-write sequence (3); the sampling loop's `try/except`
catches it — the guarded while-body is a total function that keeps the
text write, though the rest of that tick is skipped (4). -/
theorem c1_amended (st : LoggerState) (r : Reading)
    (cal : CalStore) (drv : ℕ → Option ℚ) (now t : ℚ)
    (h1 : st.sensor_active_status 1 = true)
    (h2 : now - st.last_log_time 1 ≥ st.sensor_intervals 1)
    (h3 : drv 1 = some t) :
    record true false st r =
      (none, { st with db := st.db ++ [⟨r.channel, r.calibrated, r.timestamp⟩] }) ∧
    record false false st r =
      (none, { st with textLog := st.textLog ++ [r],
                       db := st.db ++ [⟨r.channel, r.calibrated, r.timestamp⟩] }) ∧
    record false true st r =
      (some (), { st with textLog := st.textLog ++ [r] }) ∧
    loopBody cal drv (fun _ => false) (fun _ => true) now st =
      ({ st with textLog := st.textLog ++ [⟨1, t, apply_correction cal 1 t, now⟩] },
       [⟨1, t, apply_correction cal 1 t, now⟩]) := by
  refine ⟨?_, ?_, ?_, ?_⟩
  · simp [record, log_reading, insert_reading]
  · simp [record, log_reading, insert_reading]
  · simp [record, log_reading, insert_reading]
  · simp [loopBody, channelList, tickChannels, processChannel, h1, h2, h3,
          record, log_reading, insert_reading]

/-- Witness for C1 amended at the initial state with driver value 30 on
channel 1 at time 10: hypotheses hold and the structured-store failure
leaves the Reading in the text log while escaping the record sequence. -/
theorem c1_amended_witness :
    (initLogger.sensor_active_status 1 = true ∧
     (10 : ℚ) - initLogger.last_log_time 1 ≥ initLogger.sensor_intervals 1 ∧
     (fun _ : ℕ => some (30 : ℚ)) 1 = some 30) ∧
    record false true initLogger ⟨1, 30, 30, 10⟩ =
      (some (), { initLogger with textLog := [⟨1, 30, 30, 10⟩] }) :=
  ⟨⟨rfl, by norm_num [initLogger], rfl⟩,
   (c1_amended initLogger ⟨1, 30, 30, 10⟩ (fun _ => none) (fun _ => some 30) 10 30
      rfl (by norm_num [initLogger]) rfl).2.2.1⟩

/-- Channel `j` is active, due, and its driver read fails this tick. -/
def chFailed (drv : ℕ → Option ℚ) (now : ℚ) (st : LoggerState) (j : ℕ) : Prop :=
  st.sensor_active_status j = true ∧
  now - st.last_log_time j ≥ st.sensor_intervals j ∧ drv j = none

/-- Channel `j` is active, due, and its driver read yields a value. -/
def chSampled (drv : ℕ → Option ℚ) (now : ℚ) (st : LoggerState) (j : ℕ) : Prop :=
  st.sensor_active_status j = true ∧
  now - st.last_log_time j ≥ st.sensor_intervals j ∧ (drv j).isSome

theorem chFailed_congr (drv : ℕ → Option ℚ) (now : ℚ) (st st' : LoggerState) (j : ℕ)
    (hA : st'.sensor_active_status j = st.sensor_active_status j)
    (hL : st'.last_log_time j = st.last_log_time j)
    (hI : st'.sensor_intervals j = st.sensor_intervals j) :
    chFailed drv now st' j ↔ chFailed drv now st j := by
  unfold chFailed; rw [hA, hL, hI]

theorem chSampled_congr (drv : ℕ → Option ℚ) (now : ℚ) (st st' : LoggerState) (j : ℕ)
    (hA : st'.sensor_active_status j = st.sensor_active_status j)
    (hL : st'.last_log_time j = st.last_log_time j)
    (hI : st'.sensor_intervals j = st.sensor_intervals j) :
    chSampled drv now st' j ↔ chSampled drv now st j := by
  unfold chSampled; rw [hA, hL, hI]

theorem processChannel_not_active (cal : CalStore) (drv : ℕ → Option ℚ)
    (textFail dbFail : ℕ → Bool) (now : ℚ) (st : LoggerState) (i : ℕ)
    (h : st.sensor_active_status i = false) :
    processChannel cal drv textFail dbFail now st i = (none, st, []) := by
  simp [processChannel, h]

theorem processChannel_not_due (cal : CalStore) (drv : ℕ → Option ℚ)
    (textFail dbFail : ℕ → Bool) (now : ℚ) (st : LoggerState) (i : ℕ)
    (h1 : st.sensor_active_status i = true)
    (h2 : ¬ now - st.last_log_time i ≥ st.sensor_intervals i) :
    processChannel cal drv textFail dbFail now st i = (none, st, []) := by
  simp [processChannel, h1, h2]

theorem processChannel_drv_none (cal : CalStore) (drv : ℕ → Option ℚ)
    (textFail dbFail : ℕ → Bool) (now : ℚ) (st : LoggerState) (i : ℕ)
    (h1 : st.sensor_active_status i = true)
    (h2 : now - st.last_log_time i ≥ st.sensor_intervals i)
    (h3 : drv i = none) :
    processChannel cal drv textFail dbFail now st i =
      (none, { st with sensor_active_status := fun j =>
                 if j = i then false else st.sensor_active_status j }, []) := by
  simp [processChannel, h1, h2, h3]

theorem processChannel_drv_some_healthy (cal : CalStore) (drv : ℕ → Option ℚ)
    (textFail dbFail : ℕ → Bool) (now : ℚ) (st : LoggerState) (i : ℕ) (t : ℚ)
    (h1 : st.sensor_active_status i = true)
    (h2 : now - st.last_log_time i ≥ st.sensor_intervals i)
    (h3 : drv i = some t) (hdb : dbFail i = false) :
    processChannel cal drv textFail dbFail now st i =
      (none,
       { st with
           textLog := log_reading (textFail i) st.textLog
                        ⟨i, t, apply_correction cal i t, now⟩,
           db := st.db ++ [⟨i, apply_correction cal i t, now⟩],
           last_log_time := fun j => if j = i then now else st.last_log_time j },
       [⟨i, t, apply_correction cal i t, now⟩]) := by
  simp [processChannel, h1, h2, h3, record, insert_reading, hdb]

/-- Characterization of one tick over a duplicate-free channel list
when the structured store is healthy (`dbFail ≡ false`): no exception
escapes; exactly the due channels whose driver read failed are
disabled; exactly the due channels whose read succeeded get
`last_log_time := now`; intervals are untouched; and every due channel
with a successful read contributes its Reading. -/
theorem tickChannels_healthy_char (cal : CalStore) (drv : ℕ → Option ℚ)
    (textFail : ℕ → Bool) (now : ℚ) :
    ∀ (L : List ℕ), L.Nodup → ∀ (st : LoggerState),
    (tickChannels cal drv textFail (fun _ => false) now st L).1 = none ∧
    (∀ j ∈ L, chFailed drv now st j →
      (tickChannels cal drv textFail (fun _ => false) now st L).2.1.sensor_active_status j
        = false) ∧
    (∀ j, ¬ (j ∈ L ∧ chFailed drv now st j) →
      (tickChannels cal drv textFail (fun _ => false) now st L).2.1.sensor_active_status j
        = st.sensor_active_status j) ∧
    (∀ j ∈ L, chSampled drv now st j →
      (tickChannels cal drv textFail (fun _ => false) now st L).2.1.last_log_time j
        = now) ∧
    (∀ j, ¬ (j ∈ L ∧ chSampled drv now st j) →
      (tickChannels cal drv textFail (fun _ => false) now st L).2.1.last_log_time j
        = st.last_log_time j) ∧
    (tickChannels cal drv textFail (fun _ => false) now st L).2.1.sensor_intervals
      = st.sensor_intervals ∧
    (∀ j t, j ∈ L → st.sensor_active_status j = true →
      now - st.last_log_time j ≥ st.sensor_intervals j → drv j = some t →
      (⟨j, t, apply_correction cal j t, now⟩ : Reading)
        ∈ (tickChannels cal drv textFail (fun _ => false) now st L).2.2) := by
  intro L
  induction L with
  | nil =>
      intro _ st
      refine ⟨rfl, ?_, ?_, ?_, ?_, rfl, ?_⟩ <;> simp [tickChannels]
  | cons i rest ih =>
      intro hN st
      have hiNotMem : i ∉ rest := (List.nodup_cons.mp hN).1
      have hRest : rest.Nodup := (List.nodup_cons.mp hN).2
      by_cases hA : st.sensor_active_status i = true
      · by_cases hD : now - st.last_log_time i ≥ st.sensor_intervals i
        · cases hdrv : drv i with
          | none =>
              -- failed read: channel i disabled, tick continues on the rest
              have hpc := processChannel_drv_none cal drv textFail (fun _ => false)
                now st i hA hD hdrv
              set st' : LoggerState :=
                { st with sensor_active_status := fun j =>
                    if j = i then false else st.sensor_active_status j } with hst'
              have hstep : tickChannels cal drv textFail (fun _ => false) now st (i :: rest)
                  = tickChannels cal drv textFail (fun _ => false) now st' rest := by
                simp only [tickChannels, hpc]
                rcases hfold : tickChannels cal drv textFail (fun _ => false) now st' rest
                  with ⟨e, st'', rs⟩
                simp
              obtain ⟨ihE, ihA1, ihA2, ihB1, ihB2, ihC, ihD2⟩ := ih hRest st'
              have hActEq : ∀ j, j ≠ i →
                  st'.sensor_active_status j = st.sensor_active_status j := by
                intro j hj; simp [hst', hj]
              have hLogEq : ∀ j, st'.last_log_time j = st.last_log_time j := by
                intro j; simp [hst']
              have hIntEq : ∀ j, st'.sensor_intervals j = st.sensor_intervals j := by
                intro j; simp [hst']
              have hFailedIff : ∀ j, j ≠ i →
                  (chFailed drv now st' j ↔ chFailed drv now st j) := fun j hj =>
                chFailed_congr drv now st st' j (hActEq j hj) (hLogEq j) (hIntEq j)
              have hSampledIff : ∀ j, j ≠ i →
                  (chSampled drv now st' j ↔ chSampled drv now st j) := fun j hj =>
                chSampled_congr drv now st st' j (hActEq j hj) (hLogEq j) (hIntEq j)
              rw [hstep]
              refine ⟨ihE, ?_, ?_, ?_, ?_, funext fun j => (ihC ▸ hIntEq j), ?_⟩
              · intro j hj hf
                rcases List.mem_cons.mp hj with hji | hjr
                · subst hji
                  have : ¬ (j ∈ rest ∧ chFailed drv now st' j) := by
                    intro ⟨hmem, _⟩; exact hiNotMem hmem
                  rw [ihA2 j this]
                  simp [hst']
                · have hjne : j ≠ i := fun h => hiNotMem (h ▸ hjr)
                  exact ihA1 j hjr ((hFailedIff j hjne).mpr hf)
              · intro j hnot
                by_cases hji : j = i
                · subst hji
                  exact absurd ⟨List.mem_cons_self j rest, hA, hD, hdrv⟩ hnot
                · have : ¬ (j ∈ rest ∧ chFailed drv now st' j) := by
                    intro ⟨hmem, hf⟩
                    exact hnot ⟨List.mem_cons_of_mem i hmem, (hFailedIff j hji).mp hf⟩
                  rw [ihA2 j this]
                  exact hActEq j hji
              · intro j hj hs
                rcases List.mem_cons.mp hj with hji | hjr
                · subst hji
                  rcases hs with ⟨_, _, hsome⟩
                  rw [hdrv] at hsome
                  exact absurd hsome (by simp)
                · have hjne : j ≠ i := fun h => hiNotMem (h ▸ hjr)
                  exact ihB1 j hjr ((hSampledIff j hjne).mpr hs)
              · intro j hnot
                by_cases hji : j = i
                · subst hji
                  have : ¬ (j ∈ rest ∧ chSampled drv now st' j) := by
                    intro ⟨hmem, _⟩; exact hiNotMem hmem
                  rw [ihB2 j this]
                · have : ¬ (j ∈ rest ∧ chSampled drv now st' j) := by
                    intro ⟨hmem, hs⟩
                    exact hnot ⟨List.mem_cons_of_mem i hmem, (hSampledIff j hji).mp hs⟩
                  rw [ihB2 j this]
              · intro j t hj hact hdue hsome
                rcases List.mem_cons.mp hj with hji | hjr
                · subst hji
                  rw [hdrv] at hsome
                  exact absurd hsome (by simp)
                · have hjne : j ≠ i := fun h => hiNotMem (h ▸ hjr)
                  exact ihD2 j t hjr ((hActEq j hjne).symm ▸ hact)
                    (by rw [hLogEq j, hIntEq j]; exact hdue) hsome
          | some t0 =>
              -- successful read: both sinks written, last_log updated
              have hpc := processChannel_drv_some_healthy cal drv textFail
                (fun _ => false) now st i t0 hA hD hdrv rfl
              set st' : LoggerState :=
                { st with
                    textLog := log_reading (textFail i) st.textLog
                      ⟨i, t0, apply_correction cal i t0, now⟩,
                    db := st.db ++ [⟨i, apply_correction cal i t0, now⟩],
                    last_log_time := fun j =>
                      if j = i then now else st.last_log_time j } with hst'
              obtain ⟨ihE, ihA1, ihA2, ihB1, ihB2, ihC, ihD2⟩ := ih hRest st'
              have hActEq : ∀ j, st'.sensor_active_status j = st.sensor_active_status j := by
                intro j; simp [hst']
              have hLogEq : ∀ j, j ≠ i →
                  st'.last_log_time j = st.last_log_time j := by
                intro j hj; simp [hst', hj]
              have hIntEq : ∀ j, st'.sensor_intervals j = st.sensor_intervals j := by
                intro j; simp [hst']
              have hFailedIff : ∀ j, j ≠ i →
                  (chFailed drv now st' j ↔ chFailed drv now st j) := fun j hj =>
                chFailed_congr drv now st st' j (hActEq j) (hLogEq j hj) (hIntEq j)
              have hSampledIff : ∀ j, j ≠ i →
                  (chSampled drv now st' j ↔ chSampled drv now st j) := fun j hj =>
                chSampled_congr drv now st st' j (hActEq j) (hLogEq j hj) (hIntEq j)
              rcases hfold : tickChannels cal drv textFail (fun _ => false) now st' rest
                with ⟨e, stF, rsF⟩
              rw [hfold] at ihE ihA1 ihA2 ihB1 ihB2 ihC ihD2
              have hstep : tickChannels cal drv textFail (fun _ => false) now st (i :: rest)
                  = (e, stF, (⟨i, t0, apply_correction cal i t0, now⟩ : Reading) :: rsF) := by
                simp only [tickChannels, hpc, hfold]
                simp
              have hE' : (tickChannels cal drv textFail (fun _ => false) now st (i :: rest)).1
                  = e := by rw [hstep]
              have hS' : (tickChannels cal drv textFail (fun _ => false) now st (i :: rest)).2.1
                  = stF := by rw [hstep]
              have hR' : (tickChannels cal drv textFail (fun _ => false) now st (i :: rest)).2.2
                  = (⟨i, t0, apply_correction cal i t0, now⟩ : Reading) :: rsF := by rw [hstep]
              refine ⟨hE' ▸ ihE, ?_, ?_, ?_, ?_, ?_, ?_⟩
              · intro j hj hf
                rw [hS']
                rcases List.mem_cons.mp hj with hji | hjr
                · subst hji
                  rcases hf with ⟨_, _, hnone⟩
                  rw [hdrv] at hnone
                  exact absurd hnone (by simp)
                · have hjne : j ≠ i := fun h => hiNotMem (h ▸ hjr)
                  exact ihA1 j hjr ((hFailedIff j hjne).mpr hf)
              · intro j hnot
                rw [hS']
                by_cases hji : j = i
                · subst hji
                  have : ¬ (j ∈ rest ∧ chFailed drv now st' j) := by
                    intro ⟨hmem, _⟩; exact hiNotMem hmem
                  rw [ihA2 j this]
                · have : ¬ (j ∈ rest ∧ chFailed drv now st' j) := by
                    intro ⟨hmem, hf⟩
                    exact hnot ⟨List.mem_cons_of_mem i hmem, (hFailedIff j hji).mp hf⟩
                  rw [ihA2 j this]
              · intro j hj hs
                rw [hS']
                rcases List.mem_cons.mp hj with hji | hjr
                · subst hji
                  have : ¬ (j ∈ rest ∧ chSampled drv now st' j) := by
                    intro ⟨hmem, _⟩; exact hiNotMem hmem
                  rw [ihB2 j this]
                  simp [hst']
                · have hjne : j ≠ i := fun h => hiNotMem (h ▸ hjr)
                  exact ihB1 j hjr ((hSampledIff j hjne).mpr hs)
              · intro j hnot
                rw [hS']
                by_cases hji : j = i
                · subst hji
                  exact absurd ⟨List.mem_cons_self j rest, hA, hD, by simp [hdrv]⟩ hnot
                · have : ¬ (j ∈ rest ∧ chSampled drv now st' j) := by
                    intro ⟨hmem, hs⟩
                    exact hnot ⟨List.mem_cons_of_mem i hmem, (hSampledIff j hji).mp hs⟩
                  rw [ihB2 j this]
                  exact hLogEq j hji
              · rw [hS']
                exact ihC.trans (funext fun j => hIntEq j)
              · intro j t hj hact hdue hsome
                rw [hR']
                rcases List.mem_cons.mp hj with hji | hjr
                · subst hji
                  rw [hdrv] at hsome
                  cases hsome
                  exact List.mem_cons_self _ _
                · have hjne : j ≠ i := fun h => hiNotMem (h ▸ hjr)
                  exact List.mem_cons_of_mem _
                    (ihD2 j t hjr ((hActEq j).symm ▸ hact)
                      (by rw [hLogEq j hjne, hIntEq j]; exact hdue) hsome)
        · -- not due: nothing happens for channel i
          have hpc := processChannel_not_due cal drv textFail (fun _ => false)
            now st i hA hD
          have hstep : tickChannels cal drv textFail (fun _ => false) now st (i :: rest)
              = tickChannels cal drv textFail (fun _ => false) now st rest := by
            simp only [tickChannels, hpc]
            rcases hfold : tickChannels cal drv textFail (fun _ => false) now st rest
              with ⟨e, st'', rs⟩
            simp
          obtain ⟨ihE, ihA1, ihA2, ihB1, ihB2, ihC, ihD2⟩ := ih hRest st
          rw [hstep]
          refine ⟨ihE, ?_, ?_, ?_, ?_, ihC, ?_⟩
          · intro j hj hf
            rcases List.mem_cons.mp hj with hji | hjr
            · subst hji
              exact absurd hf.2.1 hD
            · exact ihA1 j hjr hf
          · intro j hnot
            refine ihA2 j ?_
            intro ⟨hmem, hf⟩
            exact hnot ⟨List.mem_cons_of_mem i hmem, hf⟩
          · intro j hj hs
            rcases List.mem_cons.mp hj with hji | hjr
            · subst hji
              exact absurd hs.2.1 hD
            · exact ihB1 j hjr hs
          · intro j hnot
            refine ihB2 j ?_
            intro ⟨hmem, hs⟩
            exact hnot ⟨List.mem_cons_of_mem i hmem, hs⟩
          · intro j t hj hact hdue hsome
            rcases List.mem_cons.mp hj with hji | hjr
            · subst hji
              exact absurd hdue hD
            · exact ihD2 j t hjr hact hdue hsome
      · -- inactive: nothing happens for channel i
        have hA' : st.sensor_active_status i = false := by
          cases h : st.sensor_active_status i
          · rfl
          · exact absurd h hA
        have hpc := processChannel_not_active cal drv textFail (fun _ => false)
          now st i hA'
        have hstep : tickChannels cal drv textFail (fun _ => false) now st (i :: rest)
            = tickChannels cal drv textFail (fun _ => false) now st rest := by
          simp only [tickChannels, hpc]
          rcases hfold : tickChannels cal drv textFail (fun _ => false) now st rest
            with ⟨e, st'', rs⟩
          simp
        obtain ⟨ihE, ihA1, ihA2, ihB1, ihB2, ihC, ihD2⟩ := ih hRest st
        rw [hstep]
        refine ⟨ihE, ?_, ?_, ?_, ?_, ihC, ?_⟩
        · intro j hj hf
          rcases List.mem_cons.mp hj with hji | hjr
          · subst hji
            exact absurd hf.1 hA
          · exact ihA1 j hjr hf
        · intro j hnot
          refine ihA2 j ?_
          intro ⟨hmem, hf⟩
          exact hnot ⟨List.mem_cons_of_mem i hmem, hf⟩
        · intro j hj hs
          rcases List.mem_cons.mp hj with hji | hjr
          · subst hji
            exact absurd hs.1 hA
          · exact ihB1 j hjr hs
        · intro j hnot
          refine ihB2 j ?_
          intro ⟨hmem, hs⟩
          exact hnot ⟨List.mem_cons_of_mem i hmem, hs⟩
        · intro j t hj hact hdue hsome
          rcases List.mem_cons.mp hj with hji | hjr
          · subst hji
            exact absurd hact hA
          · exact ihD2 j t hjr hact hdue hsome

/-- C6: in a tick with a healthy structured store, every enabled due
channel whose driver read yields no value is automatically disabled —
and only such channels are disabled (every other channel's enable flag
is untouched); independently, every enabled due channel whose read
yields a value is sampled (its Reading is handed to persistence and its
`last_log_time` advances), so a failing channel never stops another
channel from being sampled; configured intervals are untouched and no
exception escapes the tick. -/
theorem c6_per_channel_independence (cal : CalStore) (drv : ℕ → Option ℚ)
    (textFail : ℕ → Bool) (now : ℚ) (st : LoggerState) :
    (∀ i ∈ channelList, st.sensor_active_status i = true →
      now - st.last_log_time i ≥ st.sensor_intervals i → drv i = none →
      (tickChannels cal drv textFail (fun _ => false) now st
        channelList).2.1.sensor_active_status i = false) ∧
    (∀ j, ¬ (j ∈ channelList ∧ chFailed drv now st j) →
      (tickChannels cal drv textFail (fun _ => false) now st
        channelList).2.1.sensor_active_status j = st.sensor_active_status j) ∧
    (∀ j t, j ∈ channelList → st.sensor_active_status j = true →
      now - st.last_log_time j ≥ st.sensor_intervals j → drv j = some t →
      (⟨j, t, apply_correction cal j t, now⟩ : Reading)
        ∈ (tickChannels cal drv textFail (fun _ => false) now st channelList).2.2 ∧
      (tickChannels cal drv textFail (fun _ => false) now st
        channelList).2.1.last_log_time j = now) ∧
    (tickChannels cal drv textFail (fun _ => false) now st
      channelList).2.1.sensor_intervals = st.sensor_intervals ∧
    (tickChannels cal drv textFail (fun _ => false) now st channelList).1 = none := by
  obtain ⟨hE, hA1, hA2, hB1, _, hC, hD2⟩ :=
    tickChannels_healthy_char cal drv textFail now channelList (by decide) st
  refine ⟨?_, hA2, ?_, hC, hE⟩
  · intro i hi hact hdue hnone
    exact hA1 i hi ⟨hact, hdue, hnone⟩
  · intro j t hj hact hdue hsome
    exact ⟨hD2 j t hj hact hdue hsome,
           hB1 j hj ⟨hact, hdue, by simp [hsome]⟩⟩

/-- Witness for C6: with a driver that fails on channel 1 and returns
20 elsewhere, a tick from the initial state disables channel 1 while
channel 2 is still sampled (its Reading is produced and its
`last_log_time` advances to the tick time). -/
theorem c6_per_channel_independence_witness :
    (initLogger.sensor_active_status 1 = true ∧
     (10 : ℚ) - initLogger.last_log_time 1 ≥ initLogger.sensor_intervals 1 ∧
     (fun i : ℕ => if i = 1 then none else some (20 : ℚ)) 1 = none) ∧
    (tickChannels (fun _ => none) (fun i : ℕ => if i = 1 then none else some (20 : ℚ))
      (fun _ => false) (fun _ => false) 10 initLogger
      channelList).2.1.sensor_active_status 1 = false ∧
    ((⟨2, 20, 20, 10⟩ : Reading)
        ∈ (tickChannels (fun _ => none)
            (fun i : ℕ => if i = 1 then none else some (20 : ℚ))
            (fun _ => false) (fun _ => false) 10 initLogger channelList).2.2 ∧
     (tickChannels (fun _ => none) (fun i : ℕ => if i = 1 then none else some (20 : ℚ))
        (fun _ => false) (fun _ => false) 10 initLogger
        channelList).2.1.last_log_time 2 = 10) :=
  ⟨⟨rfl, by norm_num [initLogger], rfl⟩,
   (c6_per_channel_independence (fun _ => none)
      (fun i : ℕ => if i = 1 then none else some (20 : ℚ))
      (fun _ => false) 10 initLogger).1 1 (by decide) rfl
      (by norm_num [initLogger]) rfl,
   (c6_per_channel_independence (fun _ => none)
      (fun i : ℕ => if i = 1 then none else some (20 : ℚ))
      (fun _ => false) 10 initLogger).2.2.1 2 20 (by decide) rfl
      (by norm_num [initLogger]) rfl⟩

/-! ## Claims about the alert dispatcher -/

/-- The default configuration values of `load_config` (30-minute
duplicate suppression, all alert kinds enabled). -/
def c3Cfg : NotifConfig := {}

/-- The notification system's initial state: nothing sent, nothing
queued, connectivity assumed up (`ConnectivityMonitor.__init__` sets
`internet_connected = True`). -/
def notifEmpty : NotifState :=
  { sent_alerts := [], alert_queue := [], queued_alerts_file := [],
    internet_connected := true, board_connected := true }

/-- C3 counterexample: raising the identical title twice within the
suppression window, with no successful delivery in between, queues the
alert *twice*: `is_duplicate_alert` scans only `sent_alerts`, which is
appended on successful `send_email` — a merely raised-and-queued alert
does not suppress a second raise.  The claim "exactly one queued
delivery" is false at this input (the queue length is 2, not 1). -/
theorem c3_counterexample :
    ¬ (((create_alert c3Cfg 0
          (create_alert c3Cfg 0 notifEmpty .warning
            "High CPU Temperature" "msg" []).1
          .warning "High CPU Temperature" "msg" []).1.alert_queue).length = 1) := by
  decide

/-- C3 amended: duplicate suppression is keyed on successfully *sent*
alerts, not on raises.  (1) a raise is queued unless
`is_duplicate_alert` holds; (2) `is_duplicate_alert` holds exactly when
some successfully sent alert has the identical title with timestamp
inside the suppression window; (3) after an alert with the same title
was successfully delivered within the window (default 30 minutes), a
raise is suppressed — the state is unchanged, so at most one delivery
attempt follows per window once delivery succeeds; (4) when every
delivered alert with that title lies outside the window, a new raise is
queued again (a second delivery after the window elapses). -/
theorem c3_amended_dedup_on_sent :
    (∀ (cfg : NotifConfig) (now : ℚ) (st : NotifState) (l : NAlertLevel)
       (t m : String) (d : List (String × String)),
      (create_alert cfg now st l t m d).1.alert_queue =
        if is_duplicate_alert cfg now st.sent_alerts t then st.alert_queue
        else st.alert_queue ++ [⟨l, t, m, now, d, false, 0⟩]) ∧
    (∀ (cfg : NotifConfig) (now : ℚ) (sent : List NAlert) (t : String),
      is_duplicate_alert cfg now sent t = true ↔
        ∃ s ∈ sent, s.title = t ∧
          now - cfg.duplicate_suppression_minutes * 60 < s.timestamp) ∧
    (∀ (now : ℚ) (st : NotifState) (l : NAlertLevel) (t m : String)
       (d : List (String × String)) (a : NAlert),
      a ∈ st.sent_alerts → a.title = t → now - 30 * 60 < a.timestamp →
      (create_alert c3Cfg now st l t m d).1 = st) ∧
    (∀ (now : ℚ) (st : NotifState) (l : NAlertLevel) (t m : String)
       (d : List (String × String)),
      (∀ s ∈ st.sent_alerts, s.title = t → s.timestamp ≤ now - 30 * 60) →
      (create_alert c3Cfg now st l t m d).1.alert_queue =
        st.alert_queue ++ [⟨l, t, m, now, d, false, 0⟩]) := by
  refine ⟨?_, ?_, ?_, ?_⟩
  · intro cfg now st l t m d
    by_cases h : is_duplicate_alert cfg now st.sent_alerts t = true
    · simp [create_alert, h]
    · simp [create_alert, h]
  · intro cfg now sent t
    simp [is_duplicate_alert, List.any_eq_true]
  · intro now st l t m d a ha htitle hlt
    have hdup : is_duplicate_alert c3Cfg now st.sent_alerts t = true := by
      refine List.any_eq_true.mpr ⟨a, ha, ?_⟩
      simp only [c3Cfg, Bool.and_eq_true, beq_iff_eq, decide_eq_true_eq]
      exact ⟨htitle, hlt⟩
    simp [create_alert, hdup]
  · intro now st l t m d h
    have hdup : is_duplicate_alert c3Cfg now st.sent_alerts t = false := by
      rw [Bool.eq_false_iff]
      intro hcontra
      obtain ⟨s, hs, hst, hlt⟩ := by
        simpa [is_duplicate_alert, c3Cfg] using hcontra
      exact absurd hlt (not_lt.mpr (h s hs hst))
    simp [create_alert, hdup]

/-- The state after raising `"T"` at time 0 from the initial state and
delivering it successfully. -/
def c3SentState : NotifState :=
  processNextAlert true (create_alert c3Cfg 0 notifEmpty .warning "T" "m" []).1

/-- Witness for C3 amended: after `"T"` was raised at time 0 and
successfully delivered, raising `"T"` again at time 900 (inside the
30-minute window) changes nothing, while raising it at time 2000
(outside the window) queues a second delivery. -/
theorem c3_amended_dedup_on_sent_witness :
    ((⟨.warning, "T", "m", 0, [], true, 0⟩ : NAlert) ∈ c3SentState.sent_alerts ∧
     (⟨.warning, "T", "m", 0, [], true, 0⟩ : NAlert).title = "T" ∧
     (900 : ℚ) - 30 * 60 < (⟨.warning, "T", "m", 0, [], true, 0⟩ : NAlert).timestamp) ∧
    (create_alert c3Cfg 900 c3SentState .warning "T" "m2" []).1 = c3SentState ∧
    ((∀ s ∈ c3SentState.sent_alerts, s.title = "T" → s.timestamp ≤ 2000 - 30 * 60) ∧
     (create_alert c3Cfg 2000 c3SentState .warning "T" "m3" []).1.alert_queue =
       c3SentState.alert_queue ++ [⟨.warning, "T", "m3", 2000, [], false, 0⟩]) :=
  have hsent : c3SentState.sent_alerts = [⟨.warning, "T", "m", 0, [], true, 0⟩] := rfl
  have hout : ∀ s ∈ c3SentState.sent_alerts, s.title = "T" →
      s.timestamp ≤ 2000 - 30 * 60 := by
    intro s hs _
    rw [hsent] at hs
    rcases List.mem_singleton.mp hs with rfl
    norm_num
  ⟨⟨by rw [hsent]; exact List.mem_singleton.mpr rfl, rfl, by norm_num⟩,
   c3_amended_dedup_on_sent.2.2.1 900 c3SentState .warning "T" "m2" []
     ⟨.warning, "T", "m", 0, [], true, 0⟩
     (by rw [hsent]; exact List.mem_singleton.mpr rfl) rfl (by norm_num),
   ⟨hout,
    c3_amended_dedup_on_sent.2.2.2 2000 c3SentState .warning "T" "m3" [] hout⟩⟩

/-- The default notification configuration, for the offline-queue
claims. -/
def c8Cfg : NotifConfig := {}

/-- A state in which the internet check has already transitioned to
disconnected. -/
def c8OffState : NotifState :=
  { sent_alerts := [], alert_queue := [], queued_alerts_file := [],
    internet_connected := false, board_connected := true }

/-- C8 counterexample: with the internet already marked disconnected,
raising an alert (here a disk-space warning) does *not* land in the
durable on-disk queue instead of the in-memory delivery queue —
`create_alert` always targets the in-memory `alert_queue`, and only the
single "Internet Connection Lost" alert built inside
`check_connectivity` is ever saved to the file.  The claim is false at
this input: the file stays empty and the in-memory queue grows. -/
theorem c8_counterexample :
    ¬ ((create_alert c8Cfg 0 c8OffState .warning "Low Disk Space" "msg" []).1.queued_alerts_file
         = c8OffState.queued_alerts_file ++ [⟨.warning, "Low Disk Space", "msg", 0, [], false, 0⟩] ∧
       (create_alert c8Cfg 0 c8OffState .warning "Low Disk Space" "msg" []).1.alert_queue
         = c8OffState.alert_queue) := by
  decide

/-- C8 amended: (1) on the internet disconnect transition (with the
alert kind enabled and the board state unchanged), exactly the
"Internet Connection Lost" alert built inside `check_connectivity` is
appended to the durable on-disk queue, bypassing the in-memory queue;
(2) alerts raised while offline still go to the in-memory queue —
`create_alert` never touches the on-disk queue; (3) on the reconnect
transition the on-disk queue is drained into the in-memory delivery
queue in its original order, after the "Internet Connection Restored"
alert, and the on-disk queue file is cleared. -/
theorem c8_amended_offline_queue (cfg : NotifConfig) (now : ℚ) (st : NotifState) :
    (cfg.alerts_internet_disconnect = true → st.internet_connected = true →
      check_connectivity cfg now false st.board_connected st =
        { st with queued_alerts_file := st.queued_alerts_file ++ [internetLostAlert now],
                  internet_connected := false }) ∧
    (∀ (l : NAlertLevel) (t m : String) (d : List (String × String)),
      (create_alert cfg now st l t m d).1.queued_alerts_file = st.queued_alerts_file ∧
      (is_duplicate_alert cfg now st.sent_alerts t = false →
        (create_alert cfg now st l t m d).1.alert_queue =
          st.alert_queue ++ [⟨l, t, m, now, d, false, 0⟩])) ∧
    (st.internet_connected = false →
      (check_connectivity cfg now true st.board_connected st).queued_alerts_file = [] ∧
      (is_duplicate_alert cfg now st.sent_alerts "Internet Connection Restored" = false →
        (check_connectivity cfg now true st.board_connected st).alert_queue =
          st.alert_queue ++
            [⟨.info, "Internet Connection Restored",
              "Internet connectivity has been restored. Sending queued alerts.",
              now, [], false, 0⟩] ++ st.queued_alerts_file)) := by
  refine ⟨?_, ?_, ?_⟩
  · intro hcfg hup
    simp [check_connectivity, hcfg, hup, save_alert_to_file]
  · intro l t m d
    constructor
    · by_cases h : is_duplicate_alert cfg now st.sent_alerts t = true
      · simp [create_alert, h]
      · simp [create_alert, h]
    · intro h
      simp [create_alert, h]
  · intro hdown
    constructor
    · by_cases h : is_duplicate_alert cfg now st.sent_alerts
          "Internet Connection Restored" = true
      · simp [check_connectivity, hdown, create_alert, process_queued_alerts, h]
      · simp [check_connectivity, hdown, create_alert, process_queued_alerts, h]
    · intro h
      simp [check_connectivity, hdown, create_alert, process_queued_alerts, h]

/-- An offline state with one alert already in the in-memory queue and
two alerts in the durable on-disk queue. -/
def c8QueuedState : NotifState :=
  { sent_alerts := [],
    alert_queue := [⟨.info, "existing", "m0", 0, [], false, 0⟩],
    queued_alerts_file := [internetLostAlert 5, ⟨.warning, "q2", "m2", 6, [], false, 0⟩],
    internet_connected := false, board_connected := true }

/-- Witness for C8 amended: the disconnect transition from the initial
state writes exactly the internet-lost alert to the on-disk queue; an
alert raised in the offline state goes to the in-memory queue with the
file untouched; and the reconnect transition at time 7 drains both
saved alerts into the in-memory queue in order and clears the file. -/
theorem c8_amended_offline_queue_witness :
    (c8Cfg.alerts_internet_disconnect = true ∧ notifEmpty.internet_connected = true ∧
     check_connectivity c8Cfg 3 false notifEmpty.board_connected notifEmpty =
       { notifEmpty with
           queued_alerts_file := notifEmpty.queued_alerts_file ++ [internetLostAlert 3],
           internet_connected := false }) ∧
    ((create_alert c8Cfg 0 c8OffState .warning "Low Disk Space" "msg" []).1.queued_alerts_file
       = c8OffState.queued_alerts_file ∧
     (is_duplicate_alert c8Cfg 0 c8OffState.sent_alerts "Low Disk Space" = false ∧
      (create_alert c8Cfg 0 c8OffState .warning "Low Disk Space" "msg" []).1.alert_queue
        = c8OffState.alert_queue ++ [⟨.warning, "Low Disk Space", "msg", 0, [], false, 0⟩])) ∧
    (c8QueuedState.internet_connected = false ∧
     (check_connectivity c8Cfg 7 true c8QueuedState.board_connected
        c8QueuedState).queued_alerts_file = [] ∧
     (is_duplicate_alert c8Cfg 7 c8QueuedState.sent_alerts
        "Internet Connection Restored" = false ∧
      (check_connectivity c8Cfg 7 true c8QueuedState.board_connected
         c8QueuedState).alert_queue =
        c8QueuedState.alert_queue ++
          [⟨.info, "Internet Connection Restored",
            "Internet connectivity has been restored. Sending queued alerts.",
            7, [], false, 0⟩] ++ c8QueuedState.queued_alerts_file)) :=
  ⟨⟨rfl, rfl,
    (c8_amended_offline_queue c8Cfg 3 notifEmpty).1 rfl rfl⟩,
   ⟨((c8_amended_offline_queue c8Cfg 0 c8OffState).2.1 .warning
       "Low Disk Space" "msg" []).1,
    ⟨by decide,
     ((c8_amended_offline_queue c8Cfg 0 c8OffState).2.1 .warning
        "Low Disk Space" "msg" []).2 (by decide)⟩⟩,
   ⟨rfl,
    ((c8_amended_offline_queue c8Cfg 7 c8QueuedState).2.2 rfl).1,
    ⟨by decide,
     ((c8_amended_offline_queue c8Cfg 7 c8QueuedState).2.2 rfl).2 (by decide)⟩⟩⟩

end DataLogger
